import Mathlib

/-!
Verification of the `flying_cow` arcade game (`first_game.py`) against its
specification.  The Python source is shallowly embedded: pygame rectangles
become an integer `Rect` structure, the `Player` and `Enemy` classes become
structures with pure update functions, and the game loop of `main()` becomes
a per-frame transition function over an explicit `GameState`, parametrised by
the events drained each frame and by the values produced by the random source.
Python integers are unbounded, so all coordinates are `Int`.
-/

namespace FlyingCow

/-- Screen width in pixels (`SCREEN_WIDTH = 800`). -/
def SCREEN_WIDTH : Int := 800

/-- Screen height in pixels (`SCREEN_HEIGHT = 600`). -/
def SCREEN_HEIGHT : Int := 600

/-- A pygame `Rect`: top-left corner plus width and height, in integer
screen-pixel coordinates. -/
structure Rect where
  left : Int
  top : Int
  width : Int
  height : Int
  deriving DecidableEq, Repr

/-- pygame `rect.right`: x-coordinate of the right edge. -/
def Rect.right (r : Rect) : Int := r.left + r.width

/-- pygame `rect.bottom`: y-coordinate of the bottom edge. -/
def Rect.bottom (r : Rect) : Int := r.top + r.height

/-- pygame `rect.centerx` (`left + width // 2`). -/
def Rect.centerx (r : Rect) : Int := r.left + r.width / 2

/-- pygame `rect.centery` (`top + height // 2`). -/
def Rect.centery (r : Rect) : Int := r.top + r.height / 2

/-- pygame `rect.move_ip(dx, dy)`: translate the rectangle in place. -/
def Rect.move_ip (r : Rect) (dx dy : Int) : Rect :=
  { r with left := r.left + dx, top := r.top + dy }

/-- Assignment `rect.left = v`. -/
def Rect.setLeft (r : Rect) (v : Int) : Rect := { r with left := v }

/-- Assignment `rect.right = v` (pygame moves the rect: `left = v - width`). -/
def Rect.setRight (r : Rect) (v : Int) : Rect := { r with left := v - r.width }

/-- Assignment `rect.top = v`. -/
def Rect.setTop (r : Rect) (v : Int) : Rect := { r with top := v }

/-- Assignment `rect.bottom = v` (pygame moves the rect: `top = v - height`). -/
def Rect.setBottom (r : Rect) (v : Int) : Rect := { r with top := v - r.height }

/-- The only aspect of a pygame `Surface` the game logic depends on is its
pixel size.  The sprite image files (`player2.png`, `bullet2.png`) are assets
outside the source; their sizes are modelled from the declared class
attributes (`Player.width/height = 75/25`, `Enemy.width/height = 20/10`),
which the spec states as the entity dimensions. -/
structure Surface where
  width : Int
  height : Int
  deriving DecidableEq, Repr

/-- pygame `surface.get_rect()`: a rectangle of the surface's size placed at
the origin `(0, 0)`. -/
def Surface.get_rect (s : Surface) : Rect := ⟨0, 0, s.width, s.height⟩

/-- pygame `surface.get_rect(center=(x, y))`: a rectangle of the surface's
size with its center at `(x, y)`; pygame sets `left = x - width // 2` and
`top = y - height // 2`. -/
def Surface.get_rect_center (s : Surface) (x y : Int) : Rect :=
  ⟨x - s.width / 2, y - s.height / 2, s.width, s.height⟩

/-- The held-key snapshot returned by `pygame.key.get_pressed()`, restricted
to the four direction keys the game reads. -/
structure KeyState where
  up : Bool
  down : Bool
  left : Bool
  right : Bool
  deriving DecidableEq, Repr

/-- The `Player` sprite: its state is its bounding rectangle `self.rect`. -/
structure Player where
  rect : Rect
  deriving DecidableEq, Repr

/-- Class attribute `Player.width = 75`. -/
def Player.width : Int := 75

/-- Class attribute `Player.height = 25`. -/
def Player.height : Int := 25

/-- The surface loaded for the player sprite (`player2.png`); its size is
modelled from the declared class attributes (see `Surface`). -/
def playerSurface : Surface := ⟨Player.width, Player.height⟩

/-- `Player.__init__`: `self.rect = self.surface.get_rect()`. -/
def Player.init : Player := ⟨playerSurface.get_rect⟩

/-- The clamping chain at the end of `Player.update`, in source order and with
the source's comparisons: `left < 0 → left = 0`,
`right > SCREEN_WIDTH → right = SCREEN_WIDTH`, `top ≤ 0 → top = 0`,
`bottom ≥ SCREEN_HEIGHT → bottom = SCREEN_HEIGHT`. -/
def clampToScreen (r : Rect) : Rect :=
  let r := if r.left < 0 then r.setLeft 0 else r
  let r := if r.right > SCREEN_WIDTH then r.setRight SCREEN_WIDTH else r
  let r := if r.top ≤ 0 then r.setTop 0 else r
  if r.bottom ≥ SCREEN_HEIGHT then r.setBottom SCREEN_HEIGHT else r

/-- `Player.update(pressed_keys)`: derive `(x, y)` from the four direction
flags (down overwrites up, right overwrites left), translate by `(x, y)`,
then clamp the edges against the screen via `clampToScreen`. -/
def Player.update (p : Player) (pressed_keys : KeyState) : Player :=
  let y : Int := if pressed_keys.up then -5 else 0
  let y : Int := if pressed_keys.down then 5 else y
  let x : Int := if pressed_keys.left then -5 else 0
  let x : Int := if pressed_keys.right then 5 else x
  ⟨clampToScreen (p.rect.move_ip x y)⟩

/-- The `Enemy` sprite: its bounding rectangle `self.rect` and its fixed
`self.speed`. -/
structure Enemy where
  rect : Rect
  speed : Int
  deriving DecidableEq, Repr

/-- The surface loaded for the enemy sprite (`bullet2.png`); its size is
modelled from the declared class attributes `Enemy.width = 20`,
`Enemy.height = 10` (see `Surface`). -/
def enemySurface : Surface := ⟨20, 10⟩

/-- `Enemy.__init__`, parametrised by the three values the random source
produces: `x = random.randint(SCREEN_WIDTH + 20, SCREEN_WIDTH + 100)`,
`y = random.randint(0, SCREEN_HEIGHT)`, `speed = random.randint(5, 20)`.
The rectangle is `self.surface.get_rect(center=(x, y))`. -/
def Enemy.init (x y s : Int) : Enemy :=
  ⟨enemySurface.get_rect_center x y, s⟩

/-- `Enemy.update()`: move by `(-speed, 0)`; the returned flag records
whether `self.kill()` ran, i.e. whether the new `rect.right < 0`. -/
def Enemy.update (e : Enemy) : Enemy × Bool :=
  let moved : Enemy := ⟨e.rect.move_ip (-e.speed) 0, e.speed⟩
  (moved, decide (moved.rect.right < 0))

/-- The enemy's state after `k` frames of the game loop, as long as it stays
in the `enemies` group: `none` once `kill()` has run (the group no longer
calls `update()` on it). -/
def Enemy.life (e : Enemy) : Nat → Option Enemy
  | 0 => some e
  | k + 1 =>
    match e.life k with
    | none => none
    | some e2 =>
      let step := e2.update
      if step.2 then none else some step.1

/-- pygame `Rect.colliderect`: the rectangles intersect when each one's left
edge is strictly left of the other's right edge and each one's top edge is
strictly above the other's bottom edge (touching edges do not collide). -/
def Rect.colliderect (a b : Rect) : Bool :=
  decide (a.left < b.right) && decide (a.top < b.bottom) &&
    decide (a.right > b.left) && decide (a.bottom > b.top)

/-- `pygame.sprite.spritecollideany(player, enemies)` with the default
rectangle collision: is there an enemy whose rectangle collides with the
player's rectangle? -/
def spritecollideany (p : Player) (es : List Enemy) : Bool :=
  es.any fun e => p.rect.colliderect e.rect

/-- Written from the spec's words, for comparison with `Rect.colliderect`:
the standard half-open axis-aligned rectangle intersection — the two boxes
`[left, right) × [top, bottom)` share a grid point. -/
def Rect.overlapsHalfOpen (a b : Rect) : Prop :=
  ∃ px py : Int,
    a.left ≤ px ∧ px < a.right ∧ b.left ≤ px ∧ px < b.right ∧
    a.top ≤ py ∧ py < a.bottom ∧ b.top ≤ py ∧ py < b.bottom

/-- `K_ESCAPE`. -/
def K_ESCAPE : Nat := 27

/-- An event drained from the pygame event queue, restricted to the shapes
the loop inspects.  `addEnemy` is the `ADD_ENEMY` timer event; it carries the
three values the random source produces inside `Enemy()` when the handler
constructs the new enemy. -/
inductive Event where
  | quit
  | keydown (key : Nat)
  | addEnemy (x y s : Int)
  | other
  deriving DecidableEq, Repr

/-- The quit test of the event loop:
`event.type == QUIT or (event.type == KEYDOWN and event.key == K_ESCAPE)`. -/
def Event.isQuit : Event → Bool
  | .quit => true
  | .keydown k => decide (k = K_ESCAPE)
  | _ => false

/-- A member of a pygame sprite group: the player, or the enemy with a given
spawn index. -/
inductive SpriteRef where
  | player
  | enemy (id : Nat)
  deriving DecidableEq, Repr

/-- The state of `main()`'s game loop: the `running` flag, the player, the
`enemies` group (spawn index paired with enemy state), the `all_sprites`
group, the index for the next spawn, and the `pressed_keys` variable —
`none` until the assignment inside the event loop first executes. -/
structure GameState where
  running : Bool
  player : Player
  enemies : List (Nat × Enemy)
  all_sprites : List SpriteRef
  nextId : Nat
  pressed_keys : Option KeyState
  deriving DecidableEq, Repr

/-- The state at the top of the first frame: the player constructed and added
to `all_sprites`, both groups otherwise empty, `running = True`, and
`pressed_keys` never assigned. -/
def initState : GameState :=
  { running := true
    player := Player.init
    enemies := []
    all_sprites := [SpriteRef.player]
    nextId := 0
    pressed_keys := none }

/-- One iteration of the `for event in pygame.event.get()` body: the quit
test, the `ADD_ENEMY` test (a new enemy enters both groups), and the
assignment `pressed_keys = pygame.key.get_pressed()`. -/
def processEvent (s : GameState) (ev : Event) (keys : KeyState) : GameState :=
  let s := if ev.isQuit then { s with running := false } else s
  let s :=
    match ev with
    | .addEnemy x y sp =>
      { s with
        enemies := s.enemies ++ [(s.nextId, Enemy.init x y sp)]
        all_sprites := s.all_sprites ++ [SpriteRef.enemy s.nextId]
        nextId := s.nextId + 1 }
    | _ => s
  { s with pressed_keys := some keys }

/-- The external inputs of one frame: the events `pygame.event.get()` drains
and the keyboard snapshot `pygame.key.get_pressed()` returns this frame. -/
structure FrameInput where
  events : List Event
  keys : KeyState
  deriving DecidableEq, Repr

/-- `enemies.update()` together with the effect of `kill()`: every enemy in
the group moves; those whose right edge went negative leave the `enemies`
group, and their indices are reported so that they also leave
`all_sprites`. -/
def updateEnemies (es : List (Nat × Enemy)) : List (Nat × Enemy) × List Nat :=
  (es.filterMap fun p => if ((p.2).update).2 then none else some (p.1, ((p.2).update).1),
   es.filterMap fun p => if ((p.2).update).2 then some p.1 else none)

/-- What one frame produces: the next state, whether
`pygame.sprite.spritecollideany` reported a hit, and whether the collision
sound was played this frame. -/
structure FrameOut where
  state : GameState
  collided : Bool
  playedCollisionSound : Bool
  deriving DecidableEq, Repr

/-- One iteration of the `while running` body, in source order: drain the
events, `player.update(pressed_keys)`, `enemies.update()`, render, the
collision test (on a hit: `player.kill()`, play the collision sound, set
`running = False`).  Returns `none` when `player.update(pressed_keys)`
raises `NameError` because `pressed_keys` has never been assigned. -/
def frame (s : GameState) (inp : FrameInput) : Option FrameOut :=
  let s1 := inp.events.foldl (fun st ev => processEvent st ev inp.keys) s
  match s1.pressed_keys with
  | none => none
  | some ks =>
    let p := s1.player.update ks
    let eu := updateEnemies s1.enemies
    let sprites := s1.all_sprites.filter fun r =>
      match r with
      | .enemy i => decide (i ∉ eu.2)
      | .player => true
    let hit := spritecollideany p (eu.1.map Prod.snd)
    if hit then
      let s2 := { s1 with player := p, enemies := eu.1, all_sprites := sprites.filter (fun r => decide (r ≠ SpriteRef.player)), running := false }
      some ⟨s2, true, true⟩
    else
      let s2 := { s1 with player := p, enemies := eu.1, all_sprites := sprites }
      some ⟨s2, false, false⟩

/-- An observable effect of `main()` after the loop. -/
inductive Effect where
  | sleepSeconds (n : Nat)
  | stopMusic
  deriving DecidableEq, Repr

/-- The `while running` loop over a finite schedule of frame inputs; the loop
body runs only while `running` holds.  Propagates the `NameError` failure. -/
def runFrames (s : GameState) : List FrameInput → Option GameState
  | [] => some s
  | inp :: rest =>
    if s.running then
      match frame s inp with
      | none => none
      | some out => runFrames out.state rest
    else some s

/-- `main()` after setup: run the loop on the given schedule, then
`time.sleep(3)` and `pygame.mixer.music.stop()`. -/
def gameMain (inps : List FrameInput) : Option (GameState × List Effect) :=
  match runFrames initState inps with
  | none => none
  | some s => some (s, [Effect.sleepSeconds 3, Effect.stopMusic])

/-- The well-formedness the loop maintains: spawn indices in the `enemies`
group are distinct and below `nextId`, and an enemy reference is in
`all_sprites` exactly when its index is in the `enemies` group. -/
def GoodState (s : GameState) : Prop :=
  (s.enemies.map Prod.fst).Nodup ∧
  (∀ i ∈ s.enemies.map Prod.fst, i < s.nextId) ∧
  (∀ i, SpriteRef.enemy i ∈ s.all_sprites ↔ i ∈ s.enemies.map Prod.fst)

@[simp] theorem Rect.left_mk (a b w h : Int) : (Rect.mk a b w h).left = a := rfl

@[simp] theorem Rect.top_mk (a b w h : Int) : (Rect.mk a b w h).top = b := rfl

@[simp] theorem Rect.width_mk (a b w h : Int) : (Rect.mk a b w h).width = w := rfl

@[simp] theorem Rect.height_mk (a b w h : Int) : (Rect.mk a b w h).height = h := rfl

@[simp] theorem Rect.right_mk (a b w h : Int) : (Rect.mk a b w h).right = a + w := rfl

@[simp] theorem Rect.bottom_mk (a b w h : Int) : (Rect.mk a b w h).bottom = b + h := rfl

/-- Any rectangle of the player's dimensions is inside the screen after the
clamping chain of `Player.update`. -/
theorem clampToScreen_bounds (q : Rect) (hw : q.width = 75) (hh : q.height = 25) :
    0 ≤ (clampToScreen q).left ∧ (clampToScreen q).left ≤ SCREEN_WIDTH ∧
    0 ≤ (clampToScreen q).right ∧ (clampToScreen q).right ≤ SCREEN_WIDTH ∧
    0 ≤ (clampToScreen q).top ∧ (clampToScreen q).top ≤ SCREEN_HEIGHT ∧
    0 ≤ (clampToScreen q).bottom ∧ (clampToScreen q).bottom ≤ SCREEN_HEIGHT := by
  obtain ⟨a, b, w, h⟩ := q
  simp only [Rect.width_mk] at hw
  simp only [Rect.height_mk] at hh
  subst hw hh
  simp only [clampToScreen, Rect.setLeft, Rect.setRight, Rect.setTop, Rect.setBottom,
    Rect.right, Rect.bottom, SCREEN_WIDTH, SCREEN_HEIGHT]
  split_ifs <;> (try simp_all) <;> omega

/-- **C2.** For every key-state combination (all 16 assignments of the four
direction booleans) and every starting rectangle of the player's dimensions
(width 75, height 25), after `Player.update` — whose clamping is applied in
the order left, right, top, bottom — the player's rectangle satisfies
`0 ≤ left, right ≤ SCREEN_WIDTH` and `0 ≤ top, bottom ≤ SCREEN_HEIGHT`. -/
theorem player_update_in_bounds (keys : KeyState) (r : Rect)
    (hw : r.width = 75) (hh : r.height = 25) :
    0 ≤ ((Player.mk r).update keys).rect.left ∧
    ((Player.mk r).update keys).rect.left ≤ SCREEN_WIDTH ∧
    0 ≤ ((Player.mk r).update keys).rect.right ∧
    ((Player.mk r).update keys).rect.right ≤ SCREEN_WIDTH ∧
    0 ≤ ((Player.mk r).update keys).rect.top ∧
    ((Player.mk r).update keys).rect.top ≤ SCREEN_HEIGHT ∧
    0 ≤ ((Player.mk r).update keys).rect.bottom ∧
    ((Player.mk r).update keys).rect.bottom ≤ SCREEN_HEIGHT := by
  have key : ∀ dx dy : Int,
      0 ≤ (clampToScreen (r.move_ip dx dy)).left ∧
      (clampToScreen (r.move_ip dx dy)).left ≤ SCREEN_WIDTH ∧
      0 ≤ (clampToScreen (r.move_ip dx dy)).right ∧
      (clampToScreen (r.move_ip dx dy)).right ≤ SCREEN_WIDTH ∧
      0 ≤ (clampToScreen (r.move_ip dx dy)).top ∧
      (clampToScreen (r.move_ip dx dy)).top ≤ SCREEN_HEIGHT ∧
      0 ≤ (clampToScreen (r.move_ip dx dy)).bottom ∧
      (clampToScreen (r.move_ip dx dy)).bottom ≤ SCREEN_HEIGHT := fun dx dy =>
    clampToScreen_bounds (r.move_ip dx dy) (by simp [Rect.move_ip, hw]) (by simp [Rect.move_ip, hh])
  simp only [Player.update]
  exact key _ _

/-- Witness for C2 at a concrete rectangle and key state. -/
theorem player_update_in_bounds_witness :
    0 ≤ ((Player.mk ⟨0, 0, 75, 25⟩).update ⟨true, true, true, true⟩).rect.left ∧
    ((Player.mk ⟨0, 0, 75, 25⟩).update ⟨true, true, true, true⟩).rect.left ≤ SCREEN_WIDTH ∧
    0 ≤ ((Player.mk ⟨0, 0, 75, 25⟩).update ⟨true, true, true, true⟩).rect.right ∧
    ((Player.mk ⟨0, 0, 75, 25⟩).update ⟨true, true, true, true⟩).rect.right ≤ SCREEN_WIDTH ∧
    0 ≤ ((Player.mk ⟨0, 0, 75, 25⟩).update ⟨true, true, true, true⟩).rect.top ∧
    ((Player.mk ⟨0, 0, 75, 25⟩).update ⟨true, true, true, true⟩).rect.top ≤ SCREEN_HEIGHT ∧
    0 ≤ ((Player.mk ⟨0, 0, 75, 25⟩).update ⟨true, true, true, true⟩).rect.bottom ∧
    ((Player.mk ⟨0, 0, 75, 25⟩).update ⟨true, true, true, true⟩).rect.bottom ≤ SCREEN_HEIGHT :=
  player_update_in_bounds ⟨true, true, true, true⟩ ⟨0, 0, 75, 25⟩ rfl rfl

/-- **C7.** A newly constructed `Player` has width 75 and height 25, and its
bounding rectangle is initialized at `(0, 0, 75, 25)` with top-left origin. -/
theorem player_init_rect :
    Player.init.rect.width = 75 ∧ Player.init.rect.height = 25 ∧
    Player.init.rect = ⟨0, 0, 75, 25⟩ := by
  decide

/-- Characterisation of the surviving enemy after `k` updates. -/
theorem Enemy.life_spec (e : Enemy) : ∀ (k : Nat) (e2 : Enemy), e.life k = some e2 →
    e2.rect.left = e.rect.left - e.speed * k ∧ e2.rect.top = e.rect.top ∧
    e2.rect.width = e.rect.width ∧ e2.rect.height = e.rect.height ∧
    e2.speed = e.speed := by
  intro k
  induction k with
  | zero =>
    intro e2 h
    simp only [Enemy.life, Option.some.injEq] at h
    subst h
    simp
  | succ k ih =>
    intro e2 h
    simp only [Enemy.life] at h
    cases hk : e.life k with
    | none => rw [hk] at h; exact absurd h (by simp)
    | some e3 =>
      rw [hk] at h
      simp only [Enemy.update, Rect.move_ip] at h
      split at h
      · exact absurd h (by simp)
      · obtain ⟨h1, h2, h3, h4, h5⟩ := ih e3 hk
        cases h
        refine ⟨?_, ?_, ?_, ?_, ?_⟩ <;> simp only [Rect.left_mk, Rect.top_mk,
          Rect.width_mk, Rect.height_mk, h1, h2, h3, h4, h5, add_zero]
        push_cast
        ring

/-- **C3.** An obstacle constructed with speed `s` has, after `k` `update()`
calls and before removal, its x-position reduced by exactly `s * k` relative
to its spawn x, its y-position unchanged, and its speed still `s`. -/
theorem enemy_motion (x y s : Int) (k : Nat) (e2 : Enemy)
    (h : (Enemy.init x y s).life k = some e2) :
    e2.rect.left = (Enemy.init x y s).rect.left - s * k ∧
    e2.rect.top = (Enemy.init x y s).rect.top ∧
    e2.speed = s := by
  obtain ⟨h1, h2, h3, h4, h5⟩ := Enemy.life_spec (Enemy.init x y s) k e2 h
  exact ⟨h1, h2, h5⟩

/-- Witness for C3: the enemy spawned from draws `(820, 300, 5)` after three
updates. -/
theorem enemy_motion_witness :
    (Enemy.mk ⟨795, 295, 20, 10⟩ 5).rect.left =
      (Enemy.init 820 300 5).rect.left - 5 * (3 : Nat) ∧
    (Enemy.mk ⟨795, 295, 20, 10⟩ 5).rect.top = (Enemy.init 820 300 5).rect.top ∧
    (Enemy.mk ⟨795, 295, 20, 10⟩ 5).speed = 5 :=
  enemy_motion 820 300 5 3 _ (by decide)

/-- Helper for the removal-timing claim: with positive speed and a
non-negative spawn right edge, the enemy has been killed after `k` updates
exactly when its right edge has gone negative. -/
theorem enemy_kill_timing (e : Enemy) (hs : 0 < e.speed) (hr : 0 ≤ e.rect.right) :
    ∀ k : Nat, (e.life k = none ↔ e.rect.right - e.speed * k < 0) := by
  intro k
  induction k with
  | zero =>
    simp only [Enemy.life, Nat.cast_zero, mul_zero, sub_zero]
    constructor
    · intro h; exact absurd h (by simp)
    · intro h; exact absurd h (by omega)
  | succ k ih =>
    constructor
    · intro h
      simp only [Enemy.life] at h
      cases hk : e.life k with
      | none =>
        have hlt : e.rect.right - e.speed * k < 0 := ih.mp hk
        push_cast
        nlinarith [hlt, hs]
      | some e3 =>
        rw [hk] at h
        obtain ⟨h1, h2, h3, h4, h5⟩ := Enemy.life_spec e k e3 hk
        simp only [Enemy.update, Rect.move_ip, Rect.right_mk] at h
        split at h
        · rename_i hkill
          simp only [decide_eq_true_eq] at hkill
          rw [h1, h3, h5] at hkill
          simp only [Rect.right]
          push_cast
          linarith
        · exact absurd h (by simp)
    · intro h
      simp only [Enemy.life]
      cases hk : e.life k with
      | none => rfl
      | some e3 =>
        obtain ⟨h1, h2, h3, h4, h5⟩ := Enemy.life_spec e k e3 hk
        simp only [Enemy.update, Rect.move_ip, Rect.right_mk]
        have hkill : e3.rect.left + -e3.speed + e3.rect.width < 0 := by
          rw [h1, h3, h5]
          simp only [Rect.right] at h
          push_cast at h
          linarith
        simp [hkill]

/-- **C8 counterexample.** The draws `x = 820 ∈ [820, 900]`,
`y = 300 ∈ [0, 600]` (speed 5) do not yield a rectangle whose position
(top-left `(left, top)`, the spec's rectangle coordinates) equals `(820, 300)`:
the constructor centers the rectangle on the drawn point, so the position is
`(810, 295)`. -/
theorem enemy_spawn_position_counterexample :
    ¬ ((Enemy.init 820 300 5).rect.left = 820 ∧ (Enemy.init 820 300 5).rect.top = 300) := by
  decide

/-- **C8 (amended).** A newly constructed obstacle has width 20 and height 10,
and the values `(x, y)` drawn by the random source become the rectangle's
center: its top-left position is `(x - 10, y - 5)`. -/
theorem enemy_spawn_rect (x y s : Int) :
    (Enemy.init x y s).rect.width = 20 ∧ (Enemy.init x y s).rect.height = 10 ∧
    (Enemy.init x y s).rect.centerx = x ∧ (Enemy.init x y s).rect.centery = y ∧
    (Enemy.init x y s).rect.left = x - 10 ∧ (Enemy.init x y s).rect.top = y - 5 := by
  simp only [Enemy.init, enemySurface, Surface.get_rect_center, Rect.centerx, Rect.centery,
    Rect.left_mk, Rect.top_mk, Rect.width_mk, Rect.height_mk]
  norm_num

/-- **C5.** The collision test is the standard half-open axis-aligned
rectangle intersection (for rectangles of positive size, as the game's are),
and on the spec's concrete inputs: player `(0,0,75,25)` vs obstacle
`(70,10,20,10)` overlaps, vs obstacle `(75,10,20,10)` does not. -/
theorem collision_halfopen :
    (∀ a b : Rect, 0 < a.width → 0 < a.height → 0 < b.width → 0 < b.height →
      (Rect.colliderect a b = true ↔ Rect.overlapsHalfOpen a b)) ∧
    spritecollideany (Player.mk ⟨0, 0, 75, 25⟩) [Enemy.mk ⟨70, 10, 20, 10⟩ 5] = true ∧
    spritecollideany (Player.mk ⟨0, 0, 75, 25⟩) [Enemy.mk ⟨75, 10, 20, 10⟩ 5] = false := by
  refine ⟨?_, by decide, by decide⟩
  intro a b haw hah hbw hbh
  constructor
  · intro hc
    simp only [Rect.colliderect, Bool.and_eq_true, decide_eq_true_eq, Rect.right,
      Rect.bottom] at hc
    simp only [Rect.overlapsHalfOpen, Rect.right, Rect.bottom]
    exact ⟨max a.left b.left, max a.top b.top, by omega, by omega, by omega, by omega,
      by omega, by omega, by omega, by omega⟩
  · rintro ⟨px, py, hp⟩
    simp only [Rect.right, Rect.bottom] at hp
    simp only [Rect.colliderect, Bool.and_eq_true, decide_eq_true_eq, Rect.right,
      Rect.bottom]
    omega

/-- Witness for C5's equivalence at the spec's overlapping pair. -/
theorem collision_halfopen_witness :
    (Rect.colliderect ⟨0, 0, 75, 25⟩ ⟨70, 10, 20, 10⟩ = true ↔
      Rect.overlapsHalfOpen ⟨0, 0, 75, 25⟩ ⟨70, 10, 20, 10⟩) :=
  collision_halfopen.1 ⟨0, 0, 75, 25⟩ ⟨70, 10, 20, 10⟩ (by decide) (by decide)
    (by decide) (by decide)

/-- Once `running` is false no further frame executes: the loop returns the
state unchanged. -/
theorem runFrames_stopped (s : GameState) (rest : List FrameInput)
    (h : s.running = false) : runFrames s rest = some s := by
  cases rest with
  | nil => rfl
  | cons a l => simp [runFrames, h]

/-- The `running` flag after one event: cleared exactly by a quit-equivalent
event, never set. -/
theorem processEvent_running (s : GameState) (ev : Event) (k : KeyState) :
    (processEvent s ev k).running = (s.running && !ev.isQuit) := by
  cases ev <;> simp [processEvent, Event.isQuit]
  split_ifs <;> simp_all

/-- The `running` flag after draining a whole event list. -/
theorem foldl_running (events : List Event) (s : GameState) (k : KeyState) :
    (events.foldl (fun st ev => processEvent st ev k) s).running
      = (s.running && !(events.any Event.isQuit)) := by
  induction events generalizing s with
  | nil => simp
  | cons ev rest ih =>
    simp only [List.foldl_cons, List.any_cons, ih, processEvent_running, Bool.not_or,
      Bool.and_assoc]

/-- **C1 counterexample.** A concrete frame whose event list is just a quit
event: the state does transition (running becomes false), but the obstacle at
x-position 400 with speed 5 is still updated to x-position 395 in that same
frame, after event processing — refuting "no further obstacle updates are
performed that frame after event processing". -/
theorem quit_same_frame_counterexample :
    (frame
        ⟨true, Player.init, [(0, Enemy.mk ⟨400, 300, 20, 10⟩ 5)],
          [SpriteRef.player, SpriteRef.enemy 0], 1, some ⟨false, false, false, false⟩⟩
        ⟨[Event.quit], ⟨false, false, false, false⟩⟩).map
      (fun o => (o.state.running, o.state.enemies))
      = some (false, [(0, Enemy.mk ⟨395, 300, 20, 10⟩ 5)]) := by
  decide

/-- **C1 (amended).** If a quit-equivalent event is drained during a frame's
event processing, `running` is false at the end of that same frame and the
loop executes no further frame — but the remaining steps of that frame
(player update, obstacle updates, render, collision check) still execute
after event processing. -/
theorem quit_terminates_frame :
    (∀ (s : GameState) (inp : FrameInput), inp.events.any Event.isQuit = true →
      ∀ out : FrameOut, frame s inp = some out → out.state.running = false) ∧
    (∀ (s : GameState) (rest : List FrameInput), s.running = false →
      runFrames s rest = some s) := by
  constructor
  · intro s inp hq out hout
    have h1 : (inp.events.foldl (fun st ev => processEvent st ev inp.keys) s).running
        = false := by
      rw [foldl_running, hq]
      simp
    simp only [frame] at hout
    split at hout
    · exact absurd hout (by simp)
    · split at hout
      · injection hout with h2
        subst h2
        rfl
      · injection hout with h2
        subst h2
        exact h1
  · exact runFrames_stopped

/-- Witness for C1's amended theorem at a concrete frame. -/
theorem quit_terminates_frame_witness :
    (FrameOut.mk
      ⟨false, Player.mk ⟨0, 0, 75, 25⟩, [], [SpriteRef.player], 0,
        some ⟨false, false, false, false⟩⟩ false false).state.running = false :=
  quit_terminates_frame.1 initState ⟨[Event.quit], ⟨false, false, false, false⟩⟩
    (by decide)
    (FrameOut.mk
      ⟨false, Player.mk ⟨0, 0, 75, 25⟩, [], [SpriteRef.player], 0,
        some ⟨false, false, false, false⟩⟩ false false)
    (by decide)

/-- **C10.** `pressed_keys` is assigned only inside the per-event loop: every
drained event assigns it; a frame that drains zero events passes the snapshot
captured during an earlier frame's event processing to `Player.update`; and
if the very first frame drains zero events, `pressed_keys` was never assigned
and `player.update(pressed_keys)` fails (`NameError`), modelled by `frame`
returning `none`. -/
theorem pressed_keys_assignment :
    (∀ (s : GameState) (ev : Event) (keys : KeyState),
      (processEvent s ev keys).pressed_keys = some keys) ∧
    (initState.pressed_keys = none) ∧
    (∀ keys : KeyState, frame initState ⟨[], keys⟩ = none) ∧
    (∀ (s : GameState) (old now : KeyState), s.pressed_keys = some old →
      ∀ out : FrameOut, frame s ⟨[], now⟩ = some out →
        out.state.player = s.player.update old) := by
  refine ⟨fun s ev keys => rfl, rfl, fun keys => rfl, ?_⟩
  intro s old now h out hout
  simp only [frame, List.foldl_nil, h] at hout
  split at hout
  · injection hout with h2
    subst h2
    rfl
  · injection hout with h2
    subst h2
    rfl

/-- Witness for C10's stale-snapshot clause: a frame with zero events reuses
the up-key snapshot recorded earlier even though the current snapshot has no
key held. -/
theorem pressed_keys_assignment_witness :
    (FrameOut.mk
        ⟨true, Player.mk ⟨0, 0, 75, 25⟩, [], [SpriteRef.player], 0,
          some ⟨true, false, false, false⟩⟩ false false).state.player
      = (GameState.mk true (Player.mk ⟨0, 0, 75, 25⟩) [] [SpriteRef.player] 0
          (some ⟨true, false, false, false⟩)).player.update ⟨true, false, false, false⟩ :=
  pressed_keys_assignment.2.2.2
    (GameState.mk true (Player.mk ⟨0, 0, 75, 25⟩) [] [SpriteRef.player] 0
      (some ⟨true, false, false, false⟩))
    ⟨true, false, false, false⟩ ⟨false, false, false, false⟩ rfl
    (FrameOut.mk
      ⟨true, Player.mk ⟨0, 0, 75, 25⟩, [], [SpriteRef.player], 0,
        some ⟨true, false, false, false⟩⟩ false false)
    (by decide)

/-- Helper: one event never changes whether the player reference is in
`all_sprites`. -/
theorem processEvent_player_mem (s : GameState) (ev : Event) (k : KeyState) :
    (SpriteRef.player ∈ (processEvent s ev k).all_sprites ↔
      SpriteRef.player ∈ s.all_sprites) := by
  cases ev <;> simp [processEvent] <;> split_ifs <;> simp

/-- Helper: draining a whole event list never changes whether the player
reference is in `all_sprites`. -/
theorem foldl_player_mem (events : List Event) (s : GameState) (k : KeyState) :
    (SpriteRef.player ∈
        (events.foldl (fun st ev => processEvent st ev k) s).all_sprites ↔
      SpriteRef.player ∈ s.all_sprites) := by
  induction events generalizing s with
  | nil => simp
  | cons ev rest ih => simp [List.foldl_cons, ih, processEvent_player_mem]

/-- **C6.** When the collision test reports an overlap in a frame, exactly
these actions occur: the player leaves the render set, the one-shot collision
sound plays, and `running` becomes false (when no overlap is reported, no
collision sound plays and the player's render-set membership is unchanged).
`Terminated` is absorbing: once `running` is false no further frame executes,
and after the loop `main()` sleeps 3 time units and stops the background
music before returning. -/
theorem collision_frame_effects :
    (∀ (s : GameState) (inp : FrameInput) (out : FrameOut), frame s inp = some out →
      out.collided = true →
        (SpriteRef.player ∉ out.state.all_sprites ∧
         out.playedCollisionSound = true ∧ out.state.running = false)) ∧
    (∀ (s : GameState) (inp : FrameInput) (out : FrameOut), frame s inp = some out →
      out.collided = false →
        (out.playedCollisionSound = false ∧
         (SpriteRef.player ∈ out.state.all_sprites ↔ SpriteRef.player ∈ s.all_sprites))) ∧
    (∀ (s : GameState) (rest : List FrameInput), s.running = false →
      runFrames s rest = some s) ∧
    (∀ (inps : List FrameInput) (s2 : GameState) (fx : List Effect),
      gameMain inps = some (s2, fx) → fx = [Effect.sleepSeconds 3, Effect.stopMusic]) := by
  refine ⟨?_, ?_, runFrames_stopped, ?_⟩
  · intro s inp out hout hc
    simp only [frame] at hout
    split at hout
    · exact absurd hout (by simp)
    · split at hout
      · injection hout with h2
        subst h2
        refine ⟨?_, rfl, rfl⟩
        simp [List.mem_filter]
      · injection hout with h2
        subst h2
        simp at hc
  · intro s inp out hout hc
    simp only [frame] at hout
    split at hout
    · exact absurd hout (by simp)
    · split at hout
      · injection hout with h2
        subst h2
        simp at hc
      · injection hout with h2
        subst h2
        refine ⟨rfl, ?_⟩
        simp [List.mem_filter, foldl_player_mem]
  · intro inps s2 fx h
    simp only [gameMain] at h
    split at h
    · exact absurd h (by simp)
    · simp only [Option.some.injEq, Prod.mk.injEq] at h
      exact h.2.symm

/-- Witness for C6's collision clause: a frame in which the enemy at
x-position 80 (speed 20) moves onto the player and the collision test
fires. -/
theorem collision_frame_effects_witness :
    (SpriteRef.player ∉
        (FrameOut.mk
          ⟨false, Player.mk ⟨0, 0, 75, 25⟩, [(0, Enemy.mk ⟨60, 10, 20, 10⟩ 20)],
            [SpriteRef.enemy 0], 1, some ⟨false, false, false, false⟩⟩ true
          true).state.all_sprites ∧
      (FrameOut.mk
          ⟨false, Player.mk ⟨0, 0, 75, 25⟩, [(0, Enemy.mk ⟨60, 10, 20, 10⟩ 20)],
            [SpriteRef.enemy 0], 1, some ⟨false, false, false, false⟩⟩ true
          true).playedCollisionSound = true ∧
      (FrameOut.mk
          ⟨false, Player.mk ⟨0, 0, 75, 25⟩, [(0, Enemy.mk ⟨60, 10, 20, 10⟩ 20)],
            [SpriteRef.enemy 0], 1, some ⟨false, false, false, false⟩⟩ true
          true).state.running = false) :=
  collision_frame_effects.1
    (GameState.mk true (Player.mk ⟨0, 0, 75, 25⟩) [(0, Enemy.mk ⟨80, 10, 20, 10⟩ 20)]
      [SpriteRef.player, SpriteRef.enemy 0] 1 (some ⟨false, false, false, false⟩))
    ⟨[], ⟨false, false, false, false⟩⟩
    (FrameOut.mk
      ⟨false, Player.mk ⟨0, 0, 75, 25⟩, [(0, Enemy.mk ⟨60, 10, 20, 10⟩ 20)],
        [SpriteRef.enemy 0], 1, some ⟨false, false, false, false⟩⟩ true true)
    (by decide) rfl

theorem initState_good : GoodState initState := by
  refine ⟨List.nodup_nil, ?_, ?_⟩ <;> intro i <;> simp [initState]

/-- How one event can change the two groups: not at all, or by appending one
fresh enemy to both. -/
theorem processEvent_groups (s : GameState) (ev : Event) (k : KeyState) :
    ((processEvent s ev k).enemies = s.enemies ∧
     (processEvent s ev k).all_sprites = s.all_sprites ∧
     (processEvent s ev k).nextId = s.nextId) ∨
    (∃ x y sp,
      (processEvent s ev k).enemies = s.enemies ++ [(s.nextId, Enemy.init x y sp)] ∧
      (processEvent s ev k).all_sprites = s.all_sprites ++ [SpriteRef.enemy s.nextId] ∧
      (processEvent s ev k).nextId = s.nextId + 1) := by
  cases ev with
  | quit => exact Or.inl ⟨rfl, rfl, rfl⟩
  | keydown kk =>
    refine Or.inl ?_
    simp only [processEvent, Event.isQuit]
    split_ifs <;> exact ⟨rfl, rfl, rfl⟩
  | addEnemy x y sp => exact Or.inr ⟨x, y, sp, rfl, rfl, rfl⟩
  | other => exact Or.inl ⟨rfl, rfl, rfl⟩

theorem processEvent_good (s : GameState) (ev : Event) (k : KeyState)
    (h : GoodState s) : GoodState (processEvent s ev k) := by
  obtain ⟨hnd, hlt, hmem⟩ := h
  rcases processEvent_groups s ev k with ⟨he, ha, hn⟩ | ⟨x, y, sp, he, ha, hn⟩
  · refine ⟨?_, ?_, ?_⟩
    · rw [he]; exact hnd
    · rw [he, hn]; exact hlt
    · intro i; rw [ha, he]; exact hmem i
  · refine ⟨?_, ?_, ?_⟩
    · rw [he]
      simp only [List.map_append, List.map_cons, List.map_nil, List.nodup_append]
      refine ⟨hnd, List.nodup_singleton _, ?_⟩
      intro a hal har
      simp only [List.mem_singleton] at har
      subst har
      exact absurd (hlt _ hal) (lt_irrefl _)
    · intro i hi
      rw [he] at hi
      rw [hn]
      simp only [List.map_append, List.map_cons, List.map_nil, List.mem_append,
        List.mem_singleton] at hi
      rcases hi with hi | hi
      · exact Nat.lt_succ_of_lt (hlt i hi)
      · subst hi; exact Nat.lt_succ_self _
    · intro i
      rw [ha, he]
      simp only [List.map_append, List.map_cons, List.map_nil, List.mem_append,
        List.mem_singleton, SpriteRef.enemy.injEq]
      rw [hmem i]

theorem foldl_good (events : List Event) (s : GameState) (k : KeyState)
    (h : GoodState s) :
    GoodState (events.foldl (fun st ev => processEvent st ev k) s) := by
  induction events generalizing s with
  | nil => exact h
  | cons ev rest ih => exact ih (processEvent s ev k) (processEvent_good s ev k h)

/-- Indices reported killed come from the group. -/
theorem mem_updateEnemies_killed (es : List (Nat × Enemy)) (i : Nat) :
    (i ∈ (updateEnemies es).2 ↔ ∃ e, (i, e) ∈ es ∧ (e.update).2 = true) := by
  simp only [updateEnemies, List.mem_filterMap]
  constructor
  · rintro ⟨⟨a, e⟩, hm, hf⟩
    dsimp only at hf
    split at hf
    · rename_i hcond
      injection hf with hf
      subst hf
      exact ⟨e, hm, hcond⟩
    · exact absurd hf (by simp)
  · rintro ⟨e, hm, hf⟩
    exact ⟨(i, e), hm, by simp [hf]⟩

/-- Indices of surviving enemies after the update pass. -/
theorem mem_updateEnemies_fst (es : List (Nat × Enemy)) (i : Nat) :
    (i ∈ (updateEnemies es).1.map Prod.fst ↔
      ∃ e, (i, e) ∈ es ∧ (e.update).2 = false) := by
  simp only [updateEnemies, List.mem_map, List.mem_filterMap]
  constructor
  · rintro ⟨q, ⟨⟨a, e⟩, hm, hf⟩, hq⟩
    dsimp only at hf
    split at hf
    · exact absurd hf (by simp)
    · rename_i hcond
      injection hf with hf
      subst hf
      subst hq
      exact ⟨e, hm, Bool.not_eq_true _ ▸ by simpa using hcond⟩
  · rintro ⟨e, hm, hf⟩
    exact ⟨(i, (e.update).1), ⟨(i, e), hm, by simp [hf]⟩, rfl⟩

/-- With distinct indices, an index determines its enemy in the group. -/
theorem keyed_unique (es : List (Nat × Enemy)) (hnd : (es.map Prod.fst).Nodup)
    {i : Nat} {a b : Enemy} (ha : (i, a) ∈ es) (hb : (i, b) ∈ es) : a = b := by
  induction es with
  | nil => cases ha
  | cons p rest ih =>
    simp only [List.map_cons, List.nodup_cons] at hnd
    rcases List.mem_cons.mp ha with h1 | h1 <;> rcases List.mem_cons.mp hb with h2 | h2
    · rw [← h1] at h2
      injection h2 with h3 h4
      exact h4.symm
    · exfalso
      rw [← h1] at hnd
      exact hnd.1 (by simpa using List.mem_map_of_mem Prod.fst h2)
    · exfalso
      rw [← h2] at hnd
      exact hnd.1 (by simpa using List.mem_map_of_mem Prod.fst h1)
    · exact ih hnd.2 h1 h2

/-- The two components of the update pass on a group with one more enemy. -/
theorem updateEnemies_cons (a : Nat) (e : Enemy) (rest : List (Nat × Enemy)) :
    ((e.update).2 = true →
      (updateEnemies ((a, e) :: rest)).1 = (updateEnemies rest).1 ∧
      (updateEnemies ((a, e) :: rest)).2 = a :: (updateEnemies rest).2) ∧
    ((e.update).2 = false →
      (updateEnemies ((a, e) :: rest)).1 = (a, (e.update).1) :: (updateEnemies rest).1 ∧
      (updateEnemies ((a, e) :: rest)).2 = (updateEnemies rest).2) := by
  constructor <;> intro hb <;> constructor <;>
    simp [updateEnemies, List.filterMap_cons, hb]

/-- The update pass keeps indices distinct and keeps exactly the
not-killed part of the group. -/
theorem updateEnemies_good (es : List (Nat × Enemy))
    (hnd : (es.map Prod.fst).Nodup) :
    ((updateEnemies es).1.map Prod.fst).Nodup ∧
    (∀ i, (i ∈ (updateEnemies es).1.map Prod.fst ↔
      (i ∈ es.map Prod.fst ∧ i ∉ (updateEnemies es).2))) := by
  constructor
  · induction es with
    | nil => exact List.nodup_nil
    | cons p rest ih =>
      obtain ⟨a, e⟩ := p
      simp only [List.map_cons, List.nodup_cons] at hnd
      cases hb : (e.update).2 with
      | true =>
        rw [((updateEnemies_cons a e rest).1 hb).1]
        exact ih hnd.2
      | false =>
        rw [((updateEnemies_cons a e rest).2 hb).1]
        simp only [List.map_cons, List.nodup_cons]
        refine ⟨?_, ih hnd.2⟩
        intro hmem2
        obtain ⟨e2, hm2, -⟩ := (mem_updateEnemies_fst rest a).mp (by simpa using hmem2)
        exact hnd.1 (List.mem_map_of_mem Prod.fst hm2)
  · intro i
    constructor
    · intro hi
      obtain ⟨e, hm, hf⟩ := (mem_updateEnemies_fst es i).mp hi
      refine ⟨List.mem_map_of_mem Prod.fst hm, ?_⟩
      intro hk
      obtain ⟨e2, hm2, hf2⟩ := (mem_updateEnemies_killed es i).mp hk
      rw [keyed_unique es hnd hm hm2] at hf
      rw [hf2] at hf
      exact absurd hf (by simp)
    · rintro ⟨hi, hk⟩
      obtain ⟨⟨a, e⟩, hm, ha⟩ := List.mem_map.mp hi
      dsimp only at ha
      subst ha
      rw [mem_updateEnemies_fst]
      refine ⟨e, hm, ?_⟩
      cases hf : (e.update).2 with
      | false => rfl
      | true => exact absurd ((mem_updateEnemies_killed es a).mpr ⟨e, hm, hf⟩) hk

theorem frame_good (s : GameState) (inp : FrameInput) (out : FrameOut)
    (h : GoodState s) (hout : frame s inp = some out) : GoodState out.state := by
  simp only [frame] at hout
  have h1 : GoodState (inp.events.foldl (fun st ev => processEvent st ev inp.keys) s) :=
    foldl_good inp.events s inp.keys h
  generalize hgen : (inp.events.foldl (fun st ev => processEvent st ev inp.keys) s) = s1
    at hout h1
  obtain ⟨hnd, hlt, hmem⟩ := h1
  obtain ⟨hnd2, hiff⟩ := updateEnemies_good s1.enemies hnd
  split at hout
  · exact absurd hout (by simp)
  · split at hout <;> (injection hout with h2; subst h2)
    · refine ⟨hnd2, ?_, ?_⟩
      · intro i hi
        exact hlt i ((hiff i).mp hi).1
      · intro i
        simp only [List.mem_filter]
        rw [hiff i]
        constructor
        · rintro ⟨⟨hin, hcond⟩, -⟩
          simp only [decide_eq_true_eq] at hcond
          exact ⟨(hmem i).mp hin, hcond⟩
        · rintro ⟨hin, hcond⟩
          exact ⟨⟨(hmem i).mpr hin, by simpa using hcond⟩, by simp⟩
    · refine ⟨hnd2, ?_, ?_⟩
      · intro i hi
        exact hlt i ((hiff i).mp hi).1
      · intro i
        simp only [List.mem_filter]
        rw [hiff i]
        constructor
        · rintro ⟨hin, hcond⟩
          simp only [decide_eq_true_eq] at hcond
          exact ⟨(hmem i).mp hin, hcond⟩
        · rintro ⟨hin, hcond⟩
          exact ⟨(hmem i).mpr hin, by simpa using hcond⟩

theorem runFrames_good (inps : List FrameInput) (s : GameState) (h : GoodState s) :
    ∀ s2, runFrames s inps = some s2 → GoodState s2 := by
  induction inps generalizing s with
  | nil =>
    intro s2 hr
    injection hr with hr
    subst hr
    exact h
  | cons inp rest ih =>
    intro s2 hr
    simp only [runFrames] at hr
    split_ifs at hr with hrun
    · cases hf : frame s inp with
      | none =>
        simp only [hf] at hr
        exact absurd hr (by simp)
      | some out =>
        simp only [hf] at hr
        exact ih out.state (frame_good s inp out h hf) s2 hr
    · injection hr with hr
      subst hr
      exact h

/-- **C9.** In every reachable loop state the registry invariant holds: an
obstacle reference is in the render set (`all_sprites`) exactly when its
index is in the obstacle set (`enemies`) — so obstacles leave both sets
atomically — and the player is never a member of the obstacle set.
Concretely, after one frame whose events are a single spawn-timer tick and in
which no collision occurs, the render set has 2 members (player + obstacle)
and the obstacle set has 1. -/
theorem registry_invariant :
    (∀ (inps : List FrameInput) (s2 : GameState) (i : Nat),
      runFrames initState inps = some s2 →
        ((SpriteRef.enemy i ∈ s2.all_sprites ↔ i ∈ s2.enemies.map Prod.fst) ∧
         SpriteRef.player ∉ s2.enemies.map (fun p => SpriteRef.enemy p.1))) ∧
    ((runFrames initState
          [⟨[Event.addEnemy 820 300 5], ⟨false, false, false, false⟩⟩]).map
        (fun s2 => (s2.all_sprites.length, s2.enemies.length)) = some (2, 1)) := by
  refine ⟨?_, by decide⟩
  intro inps s2 i hr
  have hg := runFrames_good inps initState initState_good s2 hr
  refine ⟨hg.2.2 i, ?_⟩
  simp

/-- Witness for C9 at the spawn-tick scenario's reachable state. -/
theorem registry_invariant_witness :
    ((SpriteRef.enemy 0 ∈
        (GameState.mk true (Player.mk ⟨0, 0, 75, 25⟩)
          [(0, Enemy.mk ⟨805, 295, 20, 10⟩ 5)] [SpriteRef.player, SpriteRef.enemy 0] 1
          (some ⟨false, false, false, false⟩)).all_sprites ↔
      0 ∈ (GameState.mk true (Player.mk ⟨0, 0, 75, 25⟩)
          [(0, Enemy.mk ⟨805, 295, 20, 10⟩ 5)] [SpriteRef.player, SpriteRef.enemy 0] 1
          (some ⟨false, false, false, false⟩)).enemies.map Prod.fst) ∧
      SpriteRef.player ∉
        (GameState.mk true (Player.mk ⟨0, 0, 75, 25⟩)
          [(0, Enemy.mk ⟨805, 295, 20, 10⟩ 5)] [SpriteRef.player, SpriteRef.enemy 0] 1
          (some ⟨false, false, false, false⟩)).enemies.map
          (fun p => SpriteRef.enemy p.1)) :=
  registry_invariant.1 [⟨[Event.addEnemy 820 300 5], ⟨false, false, false, false⟩⟩]
    (GameState.mk true (Player.mk ⟨0, 0, 75, 25⟩) [(0, Enemy.mk ⟨805, 295, 20, 10⟩ 5)]
      [SpriteRef.player, SpriteRef.enemy 0] 1 (some ⟨false, false, false, false⟩)) 0
    (by decide)

/-- **C4.** An obstacle is removed exactly once, in the update call after
which its right edge is negative and never earlier (first conjunct: with
positive speed and a non-negative spawn right edge, the obstacle is gone
after `k` updates exactly when its right edge has gone negative), and the
removal leaves both groups together: in the update pass an index is reported
for removal from the render set exactly when its enemy's update killed it,
and it stays in the obstacle set exactly when the update did not kill it. -/
theorem obstacle_removal :
    (∀ e : Enemy, 0 < e.speed → 0 ≤ e.rect.right →
      ∀ k : Nat, (e.life k = none ↔ e.rect.right - e.speed * k < 0)) ∧
    (∀ (es : List (Nat × Enemy)) (i : Nat) (e : Enemy),
      (es.map Prod.fst).Nodup → (i, e) ∈ es →
        ((i ∈ (updateEnemies es).2 ↔ (e.update).2 = true) ∧
         (i ∈ (updateEnemies es).1.map Prod.fst ↔ (e.update).2 = false))) := by
  refine ⟨enemy_kill_timing, ?_⟩
  intro es i e hnd hmem
  constructor
  · rw [mem_updateEnemies_killed]
    constructor
    · rintro ⟨e2, hm2, hf2⟩
      rw [keyed_unique es hnd hmem hm2]
      exact hf2
    · intro hf
      exact ⟨e, hmem, hf⟩
  · rw [mem_updateEnemies_fst]
    constructor
    · rintro ⟨e2, hm2, hf2⟩
      rw [keyed_unique es hnd hmem hm2]
      exact hf2
    · intro hf
      exact ⟨e, hmem, hf⟩

/-- Witness for C4: the enemy with right edge 830 and speed 20 is gone after
42 updates, and a singleton group update reports its removal. -/
theorem obstacle_removal_witness :
    ((Enemy.mk ⟨810, 295, 20, 10⟩ 20).life 42 = none ↔
      (Enemy.mk ⟨810, 295, 20, 10⟩ 20).rect.right -
        (Enemy.mk ⟨810, 295, 20, 10⟩ 20).speed * (42 : Nat) < 0) :=
  obstacle_removal.1 (Enemy.mk ⟨810, 295, 20, 10⟩ 20) (by decide) (by decide) 42

end FlyingCow
